import Mathlib

/-!
Verification development for the payjoin-ffi protocol wrappers.

The repository's own code (`src/receive/v2.rs`, `src/send/v1.rs`) is a thin
binding layer over the `payjoin` protocol crate: each wrapper type is a
newtype around a protocol-crate stage value, and each wrapper method takes
`&self`, clones the inner value, delegates, and maps errors into the
binding-level `PayjoinError`.  The embedding below has two layers,
mirroring that structure:

* inner-layer types and transitions (`UncheckedProposal`,
  `ProvisionalProposal`, ...) stand for the protocol crate's state machine,
  whose bodies are not part of this repository; each such definition is
  marked `Modelled from the spec:` and follows the specification's wording.
* wrapper-layer definitions (`V2UncheckedProposal.check_broadcast_suitability`,
  `v2FinalizeProposal`, `SenderBuilder.build_with_additional_fee`, ...)
  are translated directly from the Rust source: argument order, unit
  conversions (`FeeRate::from_sat_per_vb`, `Amount::from_sat`), the
  clone-and-delegate pattern, and the error wrapping are taken from the
  source text.  The `Mutex<ProvisionalProposal>` inside
  `V2ProvisionalProposal` is rendered as explicit state passing: each
  wrapper method on it is a function from the stored state (the mutex
  content) to a result paired with the stored state after the call.

Machine integers (`u64`, `u32`) are rendered as `Nat` with explicit bounds
where overflow matters (`FeeRate::from_sat_per_vb` performs
`checked_mul(250)` on a `u64`).  Fallible Rust functions returning
`Result` are rendered with `Except`.
-/

/-- Transaction outpoint as exposed by the binding layer: a transaction id
and an output index.  In the Rust source the wrapper `OutPoint` carries the
txid as a `String`; conversions between the wrapper outpoint and the
protocol-crate outpoint preserve both fields, so a single type serves for
both layers here. -/
structure OutPoint where
  txid : String
  vout : Nat
deriving DecidableEq, Repr

/-- Transaction output: amount in satoshis and an output script given as a
byte list. -/
structure TxOut where
  value : Nat
  scriptPubkey : List Nat
deriving DecidableEq, Repr

/-- Transaction input of the sender's original transaction.  Beyond the
outpoint it carries the input's script bytes (handed to the ownership
oracle), a script-type discriminant (used by the mixed-script check), and
the value of the spent output in satoshis (PSBT witness-utxo data). -/
structure TxIn where
  outpoint : OutPoint
  scriptBytes : List Nat
  scriptType : Nat
  amount : Nat
deriving DecidableEq, Repr

/-- Binding-level error type.  Modelled from the spec: the error taxonomy
of section 7 distinguishes protocol rejections, host/server errors,
transport errors and parameter errors; the coin-selection failure of
`try_preserving_privacy` surfaces as its own selection error. -/
inductive PayjoinError where
  | protocolRejection (msg : String)
  | serverError (msg : String)
  | transportError (msg : String)
  | parameterError (msg : String)
  | selectionError (msg : String)
deriving DecidableEq, Repr

/-- Human-readable message of a binding-level error (the `to_string`
used when an inner error is converted for the caller). -/
def PayjoinError.render : PayjoinError → String
  | .protocolRejection m => m
  | .serverError m => m
  | .transportError m => m
  | .parameterError m => m
  | .selectionError m => m

/-- Protocol-crate error as seen by the wrapper: either a protocol-level
rejection of the original PSBT, or a server-side error boxing the host
callback's failure (the Rust source wraps callback failures as
`Error::Server(Box::new(e))` at every callback adapter). -/
inductive ReceiveError where
  | badRequest (msg : String)
  | server (e : PayjoinError)
deriving DecidableEq, Repr

/-- Conversion of a protocol-crate error into the binding-level error
(the `e.into()` applied by every wrapper method): protocol rejections map
to the protocol-rejection class, server-wrapped callback failures map to
the server-error class. -/
def ReceiveError.toPayjoinError : ReceiveError → PayjoinError
  | .badRequest m => .protocolRejection m
  | .server e => .serverError e.render

/-- Largest value of a Rust `u64`. -/
def u64Max : Nat := 2 ^ 64 - 1

/-- Fee rates are carried in satoshis per kilo-weight-unit, the protocol
crate's internal `FeeRate` unit. -/
def feeRateFromSatPerKwu (satPerKwu : Nat) : Nat := satPerKwu

/-- Conversion from satoshis per virtual byte to satoshis per
kilo-weight-unit: one virtual byte is four weight units, so the rate is
multiplied by 250.  The Rust `FeeRate::from_sat_per_vb` performs this as a
`checked_mul` on `u64` and returns `None` on overflow. -/
def feeRateFromSatPerVb (satPerVb : Nat) : Option Nat :=
  if satPerVb * 250 ≤ u64Max then some (satPerVb * 250) else none

/-- Result discriminant for `Except`. -/
def exceptIsOk : Except ε α → Bool
  | .ok _ => true
  | .error _ => false

/-- True exactly when a result failed with a server-class error, the class
that marks a host-callback failure as distinguishable from a protocol
rejection. -/
def errClassIsServer : Except PayjoinError α → Bool
  | .error (.serverError _) => true
  | _ => false

/-- True exactly when a result failed with a selection-class error, the
class reported by the privacy-preserving coin selection. -/
def errClassIsSelection : Except PayjoinError α → Bool
  | .error (.selectionError _) => true
  | _ => false

/-- Modelled from the spec: the sender's original transaction proposal as
the pipeline accumulates it — inputs, outputs, its resulting fee rate, and
the sender-declared output-substitution policy carried in the request
parameters.  The concrete PSBT structure is out of the specification's
scope; only the fields the pipeline inspects are carried. -/
structure OriginalProposal where
  txInputs : List TxIn
  txOutputs : List TxOut
  feerateSatPerKwu : Nat
  substitutionDisabledParam : Bool
deriving DecidableEq, Repr

/-- Serialization of the original transaction handed to the
mempool-acceptance oracle (`bitcoin::consensus::encode::serialize` in the
source, out of the specification's scope): the oracle receives opaque
bytes derived from the transaction. -/
def encodeTx (p : OriginalProposal) : List Nat :=
  p.txInputs.foldr (fun i acc => i.scriptBytes ++ acc) []
    ++ p.txOutputs.foldr (fun o acc => o.scriptPubkey ++ acc) []

/-- Modelled from the spec: PSBT data relevant to finalization — the set of
input outpoints and the transaction's resulting fee rate. -/
structure Psbt where
  inputs : List OutPoint
  feerateSatPerKwu : Nat
deriving DecidableEq, Repr

/-- Modelled from the spec: pipeline entry stage wrapping the received
original proposal. -/
structure UncheckedProposal where
  proposal : OriginalProposal
deriving DecidableEq, Repr

/-- Modelled from the spec: stage reached after broadcast suitability is
established. -/
structure MaybeInputsOwned where
  proposal : OriginalProposal
deriving DecidableEq, Repr

/-- Modelled from the spec: stage reached after the owned-input check. -/
structure MaybeMixedInputScripts where
  proposal : OriginalProposal
deriving DecidableEq, Repr

/-- Modelled from the spec: stage reached after the mixed-script check. -/
structure MaybeInputsSeen where
  proposal : OriginalProposal
deriving DecidableEq, Repr

/-- Modelled from the spec: stage reached after the seen-before check; the
receiver has not yet identified which outputs are its own. -/
structure OutputsUnknown where
  proposal : OriginalProposal
deriving DecidableEq, Repr

/-- Modelled from the spec: the mutable working proposal after the receiver
has identified its outputs.  It holds the accumulated PSBT, the sender's
original input outpoints, the amounts of current inputs and outputs, the
receiver-contributed outpoints, the receiver-owned output indices, the
output-substitution flag and the receiver's output script. -/
structure ProvisionalProposal where
  psbt : Psbt
  senderInputOutpoints : List OutPoint
  inputAmounts : List Nat
  outputAmounts : List Nat
  contributedOutpoints : List OutPoint
  ownedVouts : List Nat
  substitutionDisabled : Bool
  receiverOutputScript : List Nat
deriving DecidableEq, Repr

/-- Modelled from the spec: the immutable finalized proposal — the final
PSBT, the receiver-contributed outpoints that must be locked, the
receiver-owned output indices and the substitution flag. -/
structure PayjoinProposal where
  psbt : Psbt
  contributedOutpoints : List OutPoint
  ownedVouts : List Nat
  substitutionDisabled : Bool
deriving DecidableEq, Repr

/-- Modelled from the spec (§4.1 step 1): the broadcast-suitability check.
The mempool-acceptance oracle is consulted on the original transaction; a
callback failure propagates as the server-wrapped error the wrapper
installed, a negative answer is a protocol rejection, and when a minimum
fee rate is given the original transaction's fee rate must meet it. -/
def UncheckedProposal.check_broadcast_suitability (u : UncheckedProposal)
    (minFeeRate : Option Nat)
    (canBroadcast : OriginalProposal → Except ReceiveError Bool) :
    Except ReceiveError MaybeInputsOwned :=
  match canBroadcast u.proposal with
  | .error e => .error e
  | .ok false => .error (.badRequest "original transaction cannot be broadcast")
  | .ok true =>
    match minFeeRate with
    | none => .ok ⟨u.proposal⟩
    | some m =>
      if u.proposal.feerateSatPerKwu < m then
        .error (.badRequest "original psbt fee rate below minimum")
      else
        .ok ⟨u.proposal⟩

/-- Modelled from the spec (§4.1 step 1): an interactive receiver may skip
the broadcast-suitability check. -/
def UncheckedProposal.assume_interactive_receiver (u : UncheckedProposal) :
    MaybeInputsOwned :=
  ⟨u.proposal⟩

/-- Helper for the owned-input check: the ownership oracle is consulted on
each input script in order; a callback failure propagates, an owned input
is a protocol rejection. -/
def checkInputsNotOwnedAux (isOwned : List Nat → Except ReceiveError Bool) :
    List TxIn → Except ReceiveError Unit
  | [] => .ok ()
  | i :: rest =>
    match isOwned i.scriptBytes with
    | .error e => .error e
    | .ok true => .error (.badRequest "original psbt contains receiver-owned input")
    | .ok false => checkInputsNotOwnedAux isOwned rest

/-- Modelled from the spec (§4.1 step 2): reject any original input whose
script the receiver's wallet owns. -/
def MaybeInputsOwned.check_inputs_not_owned (m : MaybeInputsOwned)
    (isOwned : List Nat → Except ReceiveError Bool) :
    Except ReceiveError MaybeMixedInputScripts :=
  match checkInputsNotOwnedAux isOwned m.proposal.txInputs with
  | .error e => .error e
  | .ok _ => .ok ⟨m.proposal⟩

/-- Modelled from the spec (§4.1 step 3): reject proposals whose original
inputs mix script types; evaluated purely from transaction data. -/
def MaybeMixedInputScripts.check_no_mixed_input_scripts
    (m : MaybeMixedInputScripts) : Except ReceiveError MaybeInputsSeen :=
  match m.proposal.txInputs with
  | [] => .ok ⟨m.proposal⟩
  | i :: rest =>
    if rest.all (fun j => j.scriptType == i.scriptType) then
      .ok ⟨m.proposal⟩
    else
      .error (.badRequest "original psbt mixes input script types")

/-- Helper for the seen-before check: the replay oracle is consulted on
each input outpoint in order. -/
def checkNoInputsSeenAux (isKnown : OutPoint → Except ReceiveError Bool) :
    List TxIn → Except ReceiveError Unit
  | [] => .ok ()
  | i :: rest =>
    match isKnown i.outpoint with
    | .error e => .error e
    | .ok true => .error (.badRequest "input seen before")
    | .ok false => checkNoInputsSeenAux isKnown rest

/-- Modelled from the spec (§4.1 step 4): reject inputs previously observed
by the receiver. -/
def MaybeInputsSeen.check_no_inputs_seen_before (m : MaybeInputsSeen)
    (isKnown : OutPoint → Except ReceiveError Bool) :
    Except ReceiveError OutputsUnknown :=
  match checkNoInputsSeenAux isKnown m.proposal.txInputs with
  | .error e => .error e
  | .ok _ => .ok ⟨m.proposal⟩

/-- Helper for output identification: collects the indices of outputs the
ownership oracle reports as receiver-owned, propagating a callback
failure. -/
def identifyOwnedOutputs (isReceiverOutput : List Nat → Except ReceiveError Bool) :
    Nat → List TxOut → Except ReceiveError (List Nat)
  | _, [] => .ok []
  | idx, o :: rest =>
    match isReceiverOutput o.scriptPubkey with
    | .error e => .error e
    | .ok true =>
      match identifyOwnedOutputs isReceiverOutput (idx + 1) rest with
      | .error e => .error e
      | .ok l => .ok (idx :: l)
    | .ok false => identifyOwnedOutputs isReceiverOutput (idx + 1) rest

/-- Modelled from the spec (§4.1 step 5): partition outputs into
receiver-owned and not; at least one output must be receiver-owned or the
proposal is rejected.  The successor stage is the mutable provisional
proposal, as fixed by the wrapper's return type
(`Result<V2ProvisionalProposal, PayjoinError>` in the source). -/
def OutputsUnknown.identify_receiver_outputs (o : OutputsUnknown)
    (isReceiverOutput : List Nat → Except ReceiveError Bool) :
    Except ReceiveError ProvisionalProposal :=
  match identifyOwnedOutputs isReceiverOutput 0 o.proposal.txOutputs with
  | .error e => .error e
  | .ok [] => .error (.badRequest "no receiver-owned output in original psbt")
  | .ok (v :: vs) =>
    .ok
      { psbt :=
          { inputs := o.proposal.txInputs.map (fun i => i.outpoint)
            feerateSatPerKwu := o.proposal.feerateSatPerKwu }
        senderInputOutpoints := o.proposal.txInputs.map (fun i => i.outpoint)
        inputAmounts := o.proposal.txInputs.map (fun i => i.amount)
        outputAmounts := o.proposal.txOutputs.map (fun t => t.value)
        contributedOutpoints := []
        ownedVouts := v :: vs
        substitutionDisabled := o.proposal.substitutionDisabledParam
        receiverOutputScript := [] }

/-- Modelled from the spec (§4.2): add one receiver-controlled input
unconditionally; the outpoint is appended to the accumulated PSBT's inputs,
its amount to the input amounts, and the outpoint is recorded as
receiver-contributed. -/
def ProvisionalProposal.contribute_witness_input (p : ProvisionalProposal)
    (txo : TxOut) (outpoint : OutPoint) : ProvisionalProposal :=
  { p with
    psbt := { p.psbt with inputs := p.psbt.inputs ++ [outpoint] }
    inputAmounts := p.inputAmounts ++ [txo.value]
    contributedOutpoints := p.contributedOutpoints ++ [outpoint] }

/-- Minimum of a list of amounts, `none` on the empty list. -/
def minOfList : List Nat → Option Nat
  | [] => none
  | x :: xs => some (xs.foldl Nat.min x)

/-- The Unnecessary Input Heuristic test the selection policy prefers
(BlockSci UIH2): after selecting the candidate, the minimum output amount
is at least the minimum input amount, the input set being the existing
inputs together with the candidate. -/
def uih2Compatible (p : ProvisionalProposal) (candidateAmount : Nat) : Bool :=
  match minOfList p.outputAmounts with
  | none => false
  | some minOut => decide (p.inputAmounts.foldl Nat.min candidateAmount ≤ minOut)

/-- Applying a selected candidate input to the proposal: the chosen
outpoint joins the PSBT inputs, the contributed set, and its amount the
input amounts. -/
def applySelectedInput (p : ProvisionalProposal) (c : Nat × OutPoint) :
    ProvisionalProposal :=
  { p with
    psbt := { p.psbt with inputs := p.psbt.inputs ++ [c.2] }
    inputAmounts := p.inputAmounts ++ [c.1]
    contributedOutpoints := p.contributedOutpoints ++ [c.2] }

/-- Modelled from the spec (§4.2): privacy-preserving input selection.
Candidates are given as amount/outpoint pairs; the algorithm picks a
candidate whose selection keeps the minimum output amount at least the
minimum input amount (UIH2-preferring) and applies it, and fails with a
selection error if the candidate set is empty or no candidate satisfies
the privacy policy. -/
def ProvisionalProposal.try_preserving_privacy (p : ProvisionalProposal)
    (candidateInputs : List (Nat × OutPoint)) :
    Except PayjoinError OutPoint × ProvisionalProposal :=
  match candidateInputs with
  | [] => (.error (.selectionError "empty candidate set"), p)
  | c :: cs =>
    match (c :: cs).find? (fun cand => uih2Compatible p cand.1) with
    | some cand => (.ok cand.2, applySelectedInput p cand)
    | none => (.error (.selectionError "no privacy preserving candidate found"), p)

/-- Modelled from the spec (§4.2): read-only query of the sender's declared
output-substitution policy. -/
def ProvisionalProposal.is_output_substitution_disabled
    (p : ProvisionalProposal) : Bool :=
  p.substitutionDisabled

/-- Modelled from the spec (§4.2): if substitution is enabled, swap the
receiver's output script for a freshly generated one; a no-op returning
success when substitution is disabled (the generator is not invoked); a
generator failure propagates as the server-wrapped error installed by the
wrapper. -/
def ProvisionalProposal.try_substitute_receiver_output
    (p : ProvisionalProposal)
    (generateScript : Unit → Except ReceiveError (List Nat)) :
    Except ReceiveError Unit × ProvisionalProposal :=
  if p.substitutionDisabled then
    (.ok (), p)
  else
    match generateScript () with
    | .error e => (.error e, p)
    | .ok script => (.ok (), { p with receiverOutputScript := script })

/-- Modelled from the spec (§4.2): finalization hands the accumulated PSBT
to the host signing function, then verifies the returned transaction's
resulting fee rate lies within the given bounds (a missing bound is not
checked), producing the immutable finalized proposal. -/
def ProvisionalProposal.finalize_proposal (p : ProvisionalProposal)
    (processPsbt : Psbt → Except ReceiveError Psbt)
    (minFeeRate : Option Nat) (maxFeeRate : Option Nat) :
    Except ReceiveError PayjoinProposal :=
  match processPsbt p.psbt with
  | .error e => .error e
  | .ok processed =>
    match minFeeRate with
    | some m =>
      if processed.feerateSatPerKwu < m then
        .error (.badRequest "payjoin psbt fee rate below minimum")
      else
        match maxFeeRate with
        | some mx =>
          if mx < processed.feerateSatPerKwu then
            .error (.badRequest "payjoin psbt fee rate above maximum")
          else
            .ok
              { psbt := processed
                contributedOutpoints := p.contributedOutpoints
                ownedVouts := p.ownedVouts
                substitutionDisabled := p.substitutionDisabled }
        | none =>
          .ok
            { psbt := processed
              contributedOutpoints := p.contributedOutpoints
              ownedVouts := p.ownedVouts
              substitutionDisabled := p.substitutionDisabled }
    | none =>
      match maxFeeRate with
      | some mx =>
        if mx < processed.feerateSatPerKwu then
          .error (.badRequest "payjoin psbt fee rate above maximum")
        else
          .ok
            { psbt := processed
              contributedOutpoints := p.contributedOutpoints
              ownedVouts := p.ownedVouts
              substitutionDisabled := p.substitutionDisabled }
      | none =>
        .ok
          { psbt := processed
            contributedOutpoints := p.contributedOutpoints
            ownedVouts := p.ownedVouts
            substitutionDisabled := p.substitutionDisabled }

/-- Modelled from the spec (§4.1 step 6): the output-negotiation stage,
wrapping the working proposal value. -/
structure WantsOutputs where
  state : ProvisionalProposal
deriving DecidableEq, Repr

/-- Modelled from the spec (§4.1 step 7): the input-negotiation stage,
wrapping the working proposal value. -/
structure WantsInputs where
  state : ProvisionalProposal
deriving DecidableEq, Repr

/-- Modelled from the spec (§4.1 step 6): committing the output set
produces the input-negotiation stage. -/
def WantsOutputs.commit_outputs (w : WantsOutputs) :
    Except ReceiveError WantsInputs :=
  .ok ⟨w.state⟩

/-- Modelled from the spec (§4.1 step 7): committing the input set produces
the provisional proposal. -/
def WantsInputs.commit_inputs (w : WantsInputs) :
    Except ReceiveError ProvisionalProposal :=
  .ok w.state

/-- Modelled from the spec (§4.3): the outpoints the receiver contributed,
which the host must lock before broadcast. -/
def PayjoinProposal.utxos_to_be_locked (p : PayjoinProposal) : List OutPoint :=
  p.contributedOutpoints

/-- Wrapper newtype around the protocol-crate unchecked proposal
(`pub struct V2UncheckedProposal(payjoin::receive::v2::UncheckedProposal)`). -/
structure V2UncheckedProposal where
  inner : UncheckedProposal
deriving DecidableEq, Repr

/-- Wrapper newtype around the protocol-crate stage following the
broadcast-suitability check. -/
structure V2MaybeInputsOwned where
  inner : MaybeInputsOwned
deriving DecidableEq, Repr

/-- Wrapper newtype around the protocol-crate stage following the
owned-input check. -/
structure V2MaybeMixedInputScripts where
  inner : MaybeMixedInputScripts
deriving DecidableEq, Repr

/-- Wrapper newtype around the protocol-crate stage following the
mixed-script check. -/
structure V2MaybeInputsSeen where
  inner : MaybeInputsSeen
deriving DecidableEq, Repr

/-- Wrapper newtype around the protocol-crate stage following the
seen-before check. -/
structure V2OutputsUnknown where
  inner : OutputsUnknown
deriving DecidableEq, Repr

/-- Wrapper newtype around the protocol-crate output-negotiation stage. -/
structure V2WantsOutputs where
  inner : WantsOutputs
deriving DecidableEq, Repr

/-- Wrapper newtype around the protocol-crate input-negotiation stage. -/
structure V2WantsInputs where
  inner : WantsInputs
deriving DecidableEq, Repr

/-- Wrapper newtype around the protocol-crate finalized proposal. -/
structure V2PayjoinProposal where
  inner : PayjoinProposal
deriving DecidableEq, Repr

/-- Wrapper method `V2UncheckedProposal::check_broadcast_suitability`
(v2.rs:220-236): clones the inner stage, converts the optional minimum fee
rate with `FeeRate::from_sat_per_kwu`, installs the callback adapter that
serializes the transaction, invokes the host oracle and wraps its failure
as `Error::Server`, and maps the inner error into `PayjoinError`. -/
def V2UncheckedProposal.check_broadcast_suitability (s : V2UncheckedProposal)
    (minFeeRate : Option Nat)
    (canBroadcast : List Nat → Except PayjoinError Bool) :
    Except PayjoinError V2MaybeInputsOwned :=
  match
    UncheckedProposal.check_broadcast_suitability s.inner
      (minFeeRate.map feeRateFromSatPerKwu)
      (fun tx => (canBroadcast (encodeTx tx)).mapError ReceiveError.server)
  with
  | .ok m => .ok ⟨m⟩
  | .error e => .error e.toPayjoinError

/-- Wrapper method `V2UncheckedProposal::assume_interactive_receiver`
(v2.rs:243-245). -/
def V2UncheckedProposal.assume_interactive_receiver (s : V2UncheckedProposal) :
    V2MaybeInputsOwned :=
  ⟨s.inner.assume_interactive_receiver⟩

/-- Wrapper method `V2MaybeInputsOwned::check_inputs_not_owned`
(v2.rs:273-285): the callback adapter hands the oracle each input's script
bytes and wraps its failure as `Error::Server`. -/
def V2MaybeInputsOwned.check_inputs_not_owned (s : V2MaybeInputsOwned)
    (isOwned : List Nat → Except PayjoinError Bool) :
    Except PayjoinError V2MaybeMixedInputScripts :=
  match
    MaybeInputsOwned.check_inputs_not_owned s.inner
      (fun script => (isOwned script).mapError ReceiveError.server)
  with
  | .ok m => .ok ⟨m⟩
  | .error e => .error e.toPayjoinError

/-- Wrapper method `V2MaybeMixedInputScripts::check_no_mixed_input_scripts`
(v2.rs:302-308): no host callback. -/
def V2MaybeMixedInputScripts.check_no_mixed_input_scripts
    (s : V2MaybeMixedInputScripts) : Except PayjoinError V2MaybeInputsSeen :=
  match MaybeMixedInputScripts.check_no_mixed_input_scripts s.inner with
  | .ok m => .ok ⟨m⟩
  | .error e => .error e.toPayjoinError

/-- Wrapper method `V2MaybeInputsSeen::check_no_inputs_seen_before`
(v2.rs:338-349): the callback adapter hands the replay oracle each input
outpoint and wraps its failure as `Error::Server`. -/
def V2MaybeInputsSeen.check_no_inputs_seen_before (s : V2MaybeInputsSeen)
    (isKnown : OutPoint → Except PayjoinError Bool) :
    Except PayjoinError V2OutputsUnknown :=
  match
    MaybeInputsSeen.check_no_inputs_seen_before s.inner
      (fun op => (isKnown op).mapError ReceiveError.server)
  with
  | .ok m => .ok ⟨m⟩
  | .error e => .error e.toPayjoinError

/-- Wrapper method `V2OutputsUnknown::identify_receiver_outputs`
(v2.rs:383-395): the callback adapter hands the ownership oracle each
output script's bytes and wraps its failure as `Error::Server`; the
successful value is the provisional proposal, as fixed by the source's
return type `Result<V2ProvisionalProposal, PayjoinError>`. -/
def V2OutputsUnknown.identify_receiver_outputs (s : V2OutputsUnknown)
    (isReceiverOutput : List Nat → Except PayjoinError Bool) :
    Except PayjoinError ProvisionalProposal :=
  match
    OutputsUnknown.identify_receiver_outputs s.inner
      (fun script => (isReceiverOutput script).mapError ReceiveError.server)
  with
  | .ok p => .ok p
  | .error e => .error e.toPayjoinError

/-- Wrapper method `V2WantsOutputs::commit_outputs` (v2.rs:416-418): takes
the stage by shared reference, clones the inner value, commits and maps the
error. -/
def V2WantsOutputs.commit_outputs (s : V2WantsOutputs) :
    Except PayjoinError V2WantsInputs :=
  match WantsOutputs.commit_outputs s.inner with
  | .ok w => .ok ⟨w⟩
  | .error e => .error e.toPayjoinError

/-- Wrapper method `V2WantsInputs::commit_inputs` (v2.rs:437-439). -/
def V2WantsInputs.commit_inputs (s : V2WantsInputs) :
    Except PayjoinError ProvisionalProposal :=
  match WantsInputs.commit_inputs s.inner with
  | .ok p => .ok p
  | .error e => .error e.toPayjoinError

/-- Two invocations of `commit_outputs` on the same wrapper stage value:
the method takes `&self`, so the caller still holds the value after the
first call and may invoke it again. -/
def commitOutputsTwice (w : V2WantsOutputs) :
    Except PayjoinError V2WantsInputs × Except PayjoinError V2WantsInputs :=
  (w.commit_outputs, w.commit_outputs)

/-- Wrapper method `V2ProvisionalProposal::contribute_witness_input`
(v2.rs:456-463): locks the mutex and mutates the stored state in place,
always returning `Ok(())`.  The stored state is passed explicitly: the
returned pair is the call's result and the state behind the mutex after
the call. -/
def v2ContributeWitnessInput (st : ProvisionalProposal) (txo : TxOut)
    (outpoint : OutPoint) : Except PayjoinError Unit × ProvisionalProposal :=
  (.ok (), st.contribute_witness_input txo outpoint)

/-- Wrapper method `V2ProvisionalProposal::try_preserving_privacy`
(v2.rs:475-489): converts the candidate map's satoshi keys with
`Amount::from_sat`, locks the mutex, delegates, and rebuilds the returned
outpoint from its txid and vout. -/
def v2TryPreservingPrivacy (st : ProvisionalProposal)
    (candidateInputs : List (Nat × OutPoint)) :
    Except PayjoinError OutPoint × ProvisionalProposal :=
  match
    ProvisionalProposal.try_preserving_privacy st
      (candidateInputs.map (fun kv => (kv.1, kv.2)))
  with
  | (.ok e, st2) => (.ok { txid := e.txid, vout := e.vout }, st2)
  | (.error e, st2) => (.error e, st2)

/-- Wrapper method `V2ProvisionalProposal::is_output_substitution_disabled`
(v2.rs:490-492). -/
def v2IsOutputSubstitutionDisabled (st : ProvisionalProposal) : Bool :=
  st.is_output_substitution_disabled

/-- Wrapper method `V2ProvisionalProposal::try_substitute_receiver_output`
(v2.rs:496-507): locks the mutex and delegates with a generator adapter
that wraps the host generator's failure as `Error::Server`, mapping the
inner error into `PayjoinError`. -/
def v2TrySubstituteReceiverOutput (st : ProvisionalProposal)
    (generateScript : Unit → Except PayjoinError (List Nat)) :
    Except PayjoinError Unit × ProvisionalProposal :=
  match
    ProvisionalProposal.try_substitute_receiver_output st
      (fun u => (generateScript u).mapError ReceiveError.server)
  with
  | (.ok r, st2) => (.ok r, st2)
  | (.error e, st2) => (.error e.toPayjoinError, st2)

/-- Wrapper method `V2ProvisionalProposal::finalize_proposal`
(v2.rs:550-573): locks the mutex, clones the stored state and finalizes the
clone — the stored state itself is returned unchanged as the second
component.  The host signing function's failure is wrapped as
`Error::Server` by the adapter; the minimum fee rate is converted with
`min_feerate_sat_per_vb.and_then(FeeRate::from_sat_per_vb)` and the
maximum with `FeeRate::from_sat_per_vb(max_feerate_sat_per_vb)`.  The
PSBT string encoding at the host boundary is out of the specification's
scope, so the signing function is taken at the parsed-PSBT level. -/
def v2FinalizeProposal (st : ProvisionalProposal)
    (processPsbt : Psbt → Except PayjoinError Psbt)
    (minFeerateSatPerVb : Option Nat) (maxFeerateSatPerVb : Nat) :
    Except PayjoinError V2PayjoinProposal × ProvisionalProposal :=
  match
    ProvisionalProposal.finalize_proposal st
      (fun q => (processPsbt q).mapError ReceiveError.server)
      (minFeerateSatPerVb.bind feeRateFromSatPerVb)
      (feeRateFromSatPerVb maxFeerateSatPerVb)
  with
  | .ok p => (.ok ⟨p⟩, st)
  | .error e => (.error e.toPayjoinError, st)

/-- Wrapper method `V2PayjoinProposal::utxos_to_be_locked` (v2.rs:592-601):
clones the inner proposal and converts each protocol-crate outpoint into a
wrapper outpoint. -/
def V2PayjoinProposal.utxos_to_be_locked (p : V2PayjoinProposal) :
    List OutPoint :=
  (PayjoinProposal.utxos_to_be_locked p.inner).map
    (fun o => { txid := o.txid, vout := o.vout })

/-- Wrapper method `V2PayjoinProposal::is_output_substitution_disabled`
(v2.rs:602-605). -/
def V2PayjoinProposal.is_output_substitution_disabled
    (p : V2PayjoinProposal) : Bool :=
  p.inner.substitutionDisabled

/-- Sum of the receiver stages a pipeline transition can produce, used to
state which stage a transition's successful value belongs to. -/
inductive AnyStage where
  | wantsOutputs (w : V2WantsOutputs)
  | wantsInputs (w : V2WantsInputs)
  | provisional (p : ProvisionalProposal)
deriving DecidableEq, Repr

/-- Discriminant: is the stage the output-negotiation stage. -/
def AnyStage.isWantsOutputs : AnyStage → Bool
  | .wantsOutputs _ => true
  | _ => false

/-- Discriminant: is the stage the provisional proposal. -/
def AnyStage.isProvisional : AnyStage → Bool
  | .provisional _ => true
  | _ => false

/-- The stage `identify_receiver_outputs` produces, tagged: the injection
into `AnyStage.provisional` is read off the source's return type
`Result<V2ProvisionalProposal, PayjoinError>` (v2.rs:386). -/
def identifyReceiverOutputsStaged (s : V2OutputsUnknown)
    (isReceiverOutput : List Nat → Except PayjoinError Bool) :
    Except PayjoinError AnyStage :=
  (s.identify_receiver_outputs isReceiverOutput).map AnyStage.provisional

/-- The stage `commit_outputs` produces, tagged: the injection into
`AnyStage.wantsInputs` is read off the source's return type
`Result<V2WantsInputs, PayjoinError>` (v2.rs:416). -/
def commitOutputsStaged (w : V2WantsOutputs) : Except PayjoinError AnyStage :=
  w.commit_outputs.map AnyStage.wantsInputs

/-- The stage `commit_inputs` produces, tagged: the injection into
`AnyStage.provisional` is read off the source's return type
`Result<V2ProvisionalProposal, PayjoinError>` (v2.rs:437). -/
def commitInputsStaged (w : V2WantsInputs) : Except PayjoinError AnyStage :=
  w.commit_inputs.map AnyStage.provisional

/-- Discriminant on a staged result: did the transition succeed. -/
def stagedIsOk (r : Except PayjoinError AnyStage) : Bool :=
  exceptIsOk r

/-- Discriminant on a staged result: did the transition succeed with the
output-negotiation stage. -/
def stagedIsWantsOutputs : Except PayjoinError AnyStage → Bool
  | .ok s => s.isWantsOutputs
  | .error _ => false

/-- Modelled from the spec (§4.4): sender-side builder state — the original
PSBT's outputs, the payee's output script taken from the payment URI, and
the output-substitution flag. -/
structure SenderBuilder where
  psbtOutputs : List TxOut
  payeeScript : List Nat
  disableOutputSubstitutionFlag : Bool
deriving DecidableEq, Repr

/-- Modelled from the spec (§4.4): built sender negotiation state with the
decided fee contribution (amount in satoshis and change output index). -/
structure Sender where
  psbtOutputs : List TxOut
  feeContribution : Option (Nat × Nat)
  minFeeRateSatPerKwu : Nat
  disableOutputSubstitutionFlag : Bool
deriving DecidableEq, Repr

/-- Modelled from the spec (§4.4): change-output auto-detection when no
change index is supplied — it fails unless the transaction has at most two
outputs, and picks the output that does not pay the payee's script. -/
def autoDetectChangeIndex (b : SenderBuilder) : Except PayjoinError Nat :=
  if b.psbtOutputs.length > 2 then
    .error (.parameterError "ambiguous change output")
  else
    match b.psbtOutputs.findIdx? (fun o => !(o.scriptPubkey == b.payeeScript)) with
    | some i => .ok i
    | none => .error (.parameterError "no change output to draw fee from")

/-- Modelled from the spec (§4.4): resolution of the change output index,
either the explicitly supplied index (a parameter error when out of
bounds) or auto-detection. -/
def determineChangeIndex (b : SenderBuilder) (changeIndex : Option Nat) :
    Except PayjoinError Nat :=
  match changeIndex with
  | some i =>
    if i < b.psbtOutputs.length then .ok i
    else .error (.parameterError "change index out of bounds")
  | none => autoDetectChangeIndex b

/-- Modelled from the spec (§4.4): the explicit-contribution build
strategy.  The change output is resolved; when the change amount is
smaller than the requested maximum contribution, `clamp_fee_contribution`
decides between lowering the contribution to the change amount and a
parameter error.  The wrapper method
`SenderBuilder::build_with_additional_fee` (v1.rs:79-96) converts the
contribution with `Amount::from_sat`, the index with `usize::from` and the
minimum fee rate with `FeeRate::from_sat_per_kwu` — all identities here. -/
def SenderBuilder.build_with_additional_fee (b : SenderBuilder)
    (maxFeeContribution : Nat) (changeIndex : Option Nat)
    (minFeeRate : Nat) (clampFeeContribution : Bool) :
    Except PayjoinError Sender :=
  match determineChangeIndex b changeIndex with
  | .error e => .error e
  | .ok i =>
    let changeValue := (b.psbtOutputs.getD i ⟨0, []⟩).value
    if changeValue < maxFeeContribution then
      if clampFeeContribution then
        .ok
          { psbtOutputs := b.psbtOutputs
            feeContribution := some (changeValue, i)
            minFeeRateSatPerKwu := feeRateFromSatPerKwu minFeeRate
            disableOutputSubstitutionFlag := b.disableOutputSubstitutionFlag }
      else
        .error (.parameterError "change output too small for fee contribution")
    else
      .ok
        { psbtOutputs := b.psbtOutputs
          feeContribution := some (maxFeeContribution, i)
          minFeeRateSatPerKwu := feeRateFromSatPerKwu minFeeRate
          disableOutputSubstitutionFlag := b.disableOutputSubstitutionFlag }

/-- Fee contribution of a successful build, `none` on failure. -/
def senderContribution : Except PayjoinError Sender → Option (Nat × Nat)
  | .ok s => s.feeContribution
  | .error _ => none

/-- Concrete original proposal used for witnesses: one input of 10000 sats,
one output of 5000 sats, fee rate 500 sat/kwu. -/
def sampleProposal : OriginalProposal :=
  { txInputs := [{ outpoint := ⟨"aa", 0⟩, scriptBytes := [1], scriptType := 0, amount := 10000 }]
    txOutputs := [{ value := 5000, scriptPubkey := [2] }]
    feerateSatPerKwu := 500
    substitutionDisabledParam := false }

/-- Concrete provisional state as produced by identifying the receiver
output of `sampleProposal` with an always-true ownership oracle. -/
def sampleProvisional : ProvisionalProposal :=
  { psbt := { inputs := [⟨"aa", 0⟩], feerateSatPerKwu := 500 }
    senderInputOutpoints := [⟨"aa", 0⟩]
    inputAmounts := [10000]
    outputAmounts := [5000]
    contributedOutpoints := []
    ownedVouts := [0]
    substitutionDisabled := false
    receiverOutputScript := [] }

/-- Concrete output-negotiation wrapper stage. -/
def sampleWantsOutputs : V2WantsOutputs := ⟨⟨sampleProvisional⟩⟩

/-- Concrete stage awaiting output identification. -/
def sampleOutputsUnknown : V2OutputsUnknown := ⟨⟨sampleProposal⟩⟩

/-- Ownership oracle answering yes on every script. -/
def alwaysTrueCb : List Nat → Except PayjoinError Bool := fun _ => .ok true

/-- Concrete provisional state with a small existing input so that a
privacy-preserving candidate exists: inputs of 3000 sats, outputs of
5000 sats. -/
def sampleUihState : ProvisionalProposal :=
  { psbt := { inputs := [⟨"aa", 0⟩], feerateSatPerKwu := 500 }
    senderInputOutpoints := [⟨"aa", 0⟩]
    inputAmounts := [3000]
    outputAmounts := [5000]
    contributedOutpoints := []
    ownedVouts := [0]
    substitutionDisabled := false
    receiverOutputScript := [] }

/-- Concrete provisional state that has already received one receiver
contribution: sender input `aa:0`, receiver-contributed input `bb:1`. -/
def sampleFinalState : ProvisionalProposal :=
  { psbt := { inputs := [⟨"aa", 0⟩, ⟨"bb", 1⟩], feerateSatPerKwu := 500 }
    senderInputOutpoints := [⟨"aa", 0⟩]
    inputAmounts := [10000, 4000]
    outputAmounts := [5000]
    contributedOutpoints := [⟨"bb", 1⟩]
    ownedVouts := [0]
    substitutionDisabled := false
    receiverOutputScript := [] }

/-- Concrete provisional state with output substitution disabled. -/
def sampleDisabledState : ProvisionalProposal :=
  { sampleProvisional with substitutionDisabled := true }

/-- Concrete processed PSBT whose resulting fee rate is 500 sat/vB
(125000 sat/kwu), preserving the working PSBT's inputs. -/
def psbtRate500 : Psbt :=
  { inputs := [⟨"aa", 0⟩], feerateSatPerKwu := 125000 }

/-- Concrete processed PSBT whose resulting fee rate is 2000 sat/vB
(500000 sat/kwu). -/
def psbtRate2000 : Psbt :=
  { inputs := [⟨"aa", 0⟩], feerateSatPerKwu := 500000 }

/-- Host signing function returning the 500 sat/vB processed PSBT. -/
def processPsbtRate500 : Psbt → Except PayjoinError Psbt :=
  fun _ => .ok psbtRate500

/-- Host signing function returning the 2000 sat/vB processed PSBT. -/
def processPsbtRate2000 : Psbt → Except PayjoinError Psbt :=
  fun _ => .ok psbtRate2000

/-- Concrete processed PSBT for the finalized-proposal witness: it keeps
the inputs of `sampleFinalState` and has fee rate 500 sat/vB. -/
def psbtFinal : Psbt :=
  { inputs := [⟨"aa", 0⟩, ⟨"bb", 1⟩], feerateSatPerKwu := 125000 }

/-- Host signing function for the finalized-proposal witness. -/
def processPsbtFinal : Psbt → Except PayjoinError Psbt :=
  fun _ => .ok psbtFinal

/-- The finalized proposal produced by finalizing `sampleFinalState` with
`processPsbtFinal` under bounds 1..1000 sat/vB. -/
def sampleFinalizedProp : V2PayjoinProposal :=
  ⟨{ psbt := psbtFinal
     contributedOutpoints := [⟨"bb", 1⟩]
     ownedVouts := [0]
     substitutionDisabled := false }⟩

/-- The provisional state produced by `identify_receiver_outputs` on
`sampleOutputsUnknown` with the always-true oracle. -/
def sampleIdentifiedStage : AnyStage := .provisional sampleProvisional

/-- Concrete sender builder: a payment of 100000 sats to the payee script
and a change output of 500 sats. -/
def sampleSenderBuilder : SenderBuilder :=
  { psbtOutputs := [{ value := 100000, scriptPubkey := [1] }, { value := 500, scriptPubkey := [2] }]
    payeeScript := [1]
    disableOutputSubstitutionFlag := false }

/-- C1: the specification claims each receiver stage value is consumed by
its transition exactly once, so that invoking a transition a second time
on the same stage value is structurally unrepresentable or fails
deterministically.  Counterexample: the wrapper methods take the stage by
shared reference and clone the inner value (v2.rs:416-418), so
`commit_outputs` can be invoked twice on the same `V2WantsOutputs` value
and both invocations succeed, the second silently producing a successor
stage from the same stage value. -/
theorem claim_C1_counterexample :
    exceptIsOk (commitOutputsTwice sampleWantsOutputs).1 = true ∧
    exceptIsOk (commitOutputsTwice sampleWantsOutputs).2 = true := by
  exact ⟨rfl, rfl⟩

/-- C1 (amended): wrapper transitions do not consume the stage value — they
take it by shared reference and operate on a clone, so invoking
`commit_outputs` a second time on the same `V2WantsOutputs` value is
representable, succeeds, and deterministically returns the same successor
stage as the first invocation. -/
theorem claim_C1_amended (w : V2WantsOutputs) :
    (commitOutputsTwice w).1 = .ok ⟨⟨w.inner.state⟩⟩ ∧
    (commitOutputsTwice w).2 = (commitOutputsTwice w).1 := by
  exact ⟨rfl, rfl⟩

/-- C2: the specification claims `identify_receiver_outputs` produces the
`WantsOutputs` stage, so that the pipeline passes through `WantsOutputs`
and `WantsInputs` before the provisional proposal.  Counterexample: on a
concrete proposal the transition succeeds and its successful value is the
provisional proposal, not the output-negotiation stage — the source's
return type is `Result<V2ProvisionalProposal, PayjoinError>` (v2.rs:386). -/
theorem claim_C2_counterexample :
    stagedIsOk (identifyReceiverOutputsStaged sampleOutputsUnknown alwaysTrueCb) = true ∧
    stagedIsWantsOutputs (identifyReceiverOutputsStaged sampleOutputsUnknown alwaysTrueCb) = false := by
  exact ⟨rfl, rfl⟩

/-- C2 (amended): `identify_receiver_outputs` produces the provisional
proposal directly; the `WantsOutputs` and `WantsInputs` stages exist with
their `commit_outputs` and `commit_inputs` transitions, but the pipeline
leaving `OutputsUnknown` does not pass through them. -/
theorem claim_C2_amended :
    (∀ (s : V2OutputsUnknown) (cb : List Nat → Except PayjoinError Bool)
      (r : AnyStage), identifyReceiverOutputsStaged s cb = .ok r →
        r.isProvisional = true) ∧
    (∀ w : V2WantsOutputs,
      commitOutputsStaged w = .ok (.wantsInputs ⟨⟨w.inner.state⟩⟩)) ∧
    (∀ w : V2WantsInputs,
      commitInputsStaged w = .ok (.provisional w.inner.state)) := by
  refine ⟨?_, fun w => rfl, fun w => rfl⟩
  intro s cb r h
  unfold identifyReceiverOutputsStaged at h
  cases hres : s.identify_receiver_outputs cb with
  | ok p =>
    rw [hres] at h
    simp only [Except.map] at h
    cases h
    rfl
  | error e =>
    rw [hres] at h
    simp [Except.map] at h

/-- C2 (amended) witness: the amended theorem applied to the concrete
proposal, whose identified successor stage is the provisional proposal. -/
theorem claim_C2_amended_witness :
    AnyStage.isProvisional sampleIdentifiedStage = true :=
  claim_C2_amended.1 sampleOutputsUnknown alwaysTrueCb sampleIdentifiedStage rfl

/-- C9: for every call to `finalize_proposal` on the wrapper proposal,
whether the call succeeds or fails, the proposal state stored behind the
mutex is unchanged afterwards: the wrapper locks, clones the stored state
and finalizes the clone (v2.rs:556-558), never writing back.  The lock's
scope is the individual call, rendered here as one state-passing step. -/
theorem claim_C9 (st : ProvisionalProposal)
    (processPsbt : Psbt → Except PayjoinError Psbt)
    (minVb : Option Nat) (maxVb : Nat) :
    (v2FinalizeProposal st processPsbt minVb maxVb).2 = st := by
  unfold v2FinalizeProposal
  split <;> rfl

/-- C10: in the wrapper's `finalize_proposal`, the optional minimum fee
rate is converted with
`min_feerate_sat_per_vb.and_then(FeeRate::from_sat_per_vb)` (v2.rs:568),
so a value whose conversion overflows yields `None` and the call proceeds
exactly as if no minimum had been given, rather than failing with a
parameter error. -/
theorem claim_C10 (st : ProvisionalProposal)
    (processPsbt : Psbt → Except PayjoinError Psbt)
    (minVb maxVb : Nat)
    (hover : feeRateFromSatPerVb minVb = none) :
    v2FinalizeProposal st processPsbt (some minVb) maxVb =
      v2FinalizeProposal st processPsbt none maxVb := by
  unfold v2FinalizeProposal
  simp [Option.bind, hover]

/-- C10 witness: 2^60 sat/vB overflows the fee-rate conversion, and the
finalization with that minimum equals the finalization with no minimum. -/
theorem claim_C10_witness :
    v2FinalizeProposal sampleProvisional processPsbtRate500 (some (2 ^ 60)) 1000 =
      v2FinalizeProposal sampleProvisional processPsbtRate500 none 1000 :=
  claim_C10 sampleProvisional processPsbtRate500 (2 ^ 60) 1000 (by decide)

/-- C3: finalization succeeds exactly when the host-processed PSBT's
resulting fee rate lies within the requested bounds: given that the host
signing function succeeds and both bound conversions are defined, the
wrapper's `finalize_proposal` returns success if and only if the processed
fee rate is between the converted minimum and maximum. -/
theorem claim_C3 (st : ProvisionalProposal)
    (processPsbt : Psbt → Except PayjoinError Psbt) (q : Psbt)
    (minVb maxVb m mx : Nat)
    (hcb : processPsbt st.psbt = .ok q)
    (hmin : feeRateFromSatPerVb minVb = some m)
    (hmax : feeRateFromSatPerVb maxVb = some mx) :
    exceptIsOk (v2FinalizeProposal st processPsbt (some minVb) maxVb).1 = true ↔
      (m ≤ q.feerateSatPerKwu ∧ q.feerateSatPerKwu ≤ mx) := by
  unfold v2FinalizeProposal ProvisionalProposal.finalize_proposal
  simp only [hcb, Except.mapError, Option.bind, hmin, hmax]
  by_cases h1 : q.feerateSatPerKwu < m
  · simp only [if_pos h1, exceptIsOk]
    constructor
    · intro h
      exact absurd h (by simp)
    · intro h
      omega
  · simp only [if_neg h1]
    by_cases h2 : mx < q.feerateSatPerKwu
    · simp only [if_pos h2, exceptIsOk]
      constructor
      · intro h
        exact absurd h (by simp)
      · intro h
        omega
    · simp only [if_neg h2, exceptIsOk]
      constructor
      · intro _
        omega
      · intro _
        trivial

/-- C3 witness: with bounds 1..1000 sat/vB (250..250000 sat/kwu), a
processed PSBT at 500 sat/vB passes, one at 2000 sat/vB fails, and the
failure is the fee-bound protocol rejection. -/
theorem claim_C3_witness :
    exceptIsOk (v2FinalizeProposal sampleProvisional processPsbtRate500 (some 1) 1000).1 = true ∧
    exceptIsOk (v2FinalizeProposal sampleProvisional processPsbtRate2000 (some 1) 1000).1 = false ∧
    (v2FinalizeProposal sampleProvisional processPsbtRate2000 (some 1) 1000).1 =
      .error (.protocolRejection "payjoin psbt fee rate above maximum") := by
  refine ⟨?_, ?_, by rfl⟩
  · exact (claim_C3 sampleProvisional processPsbtRate500 psbtRate500
      1 1000 250 250000 rfl rfl rfl).mpr (by decide)
  · cases hb : exceptIsOk (v2FinalizeProposal sampleProvisional processPsbtRate2000 (some 1) 1000).1 with
    | false => rfl
    | true =>
      have h := (claim_C3 sampleProvisional processPsbtRate2000 psbtRate2000
        1 1000 250 250000 rfl rfl rfl).mp hb
      exact absurd h (by decide)

/-- C4: the privacy-preserving selection returns only UIH2-compatible
candidates — if the call succeeds, the returned outpoint belongs to a
candidate whose selection keeps the minimum output amount at least the
minimum input amount; whenever such a candidate exists the call succeeds;
and the call fails with a selection error on an empty candidate set or
when no candidate satisfies the privacy policy. -/
theorem claim_C4 (st : ProvisionalProposal) (cands : List (Nat × OutPoint)) :
    (∀ op st2, v2TryPreservingPrivacy st cands = (.ok op, st2) →
      ∃ c ∈ cands, uih2Compatible st c.1 = true ∧ c.2 = op) ∧
    ((∃ c ∈ cands, uih2Compatible st c.1 = true) →
      exceptIsOk (v2TryPreservingPrivacy st cands).1 = true) ∧
    (cands = [] → (v2TryPreservingPrivacy st cands).1 =
      .error (.selectionError "empty candidate set")) ∧
    ((∀ c ∈ cands, uih2Compatible st c.1 = false) →
      errClassIsSelection (v2TryPreservingPrivacy st cands).1 = true) := by
  refine ⟨?_, ?_, ?_, ?_⟩
  · intro op st2 h
    cases cands with
    | nil =>
      simp [v2TryPreservingPrivacy, ProvisionalProposal.try_preserving_privacy] at h
    | cons c cs =>
      cases hf : (c :: cs).find? (fun cand => uih2Compatible st cand.1) with
      | none =>
        simp [v2TryPreservingPrivacy, ProvisionalProposal.try_preserving_privacy, hf] at h
      | some cand =>
        simp [v2TryPreservingPrivacy, ProvisionalProposal.try_preserving_privacy, hf] at h
        have hp : uih2Compatible st cand.1 = true := by
          have hq := List.find?_some hf
          simpa using hq
        refine ⟨cand, List.mem_of_find?_eq_some hf, hp, ?_⟩
        exact h.1
  · intro hex
    cases cands with
    | nil =>
      obtain ⟨c, hc, -⟩ := hex
      exact absurd hc (by simp)
    | cons c cs =>
      have hsome : ((c :: cs).find? (fun cand => uih2Compatible st cand.1)).isSome := by
        exact List.find?_isSome.mpr hex
      cases hf : (c :: cs).find? (fun cand => uih2Compatible st cand.1) with
      | none => rw [hf] at hsome; simp at hsome
      | some cand =>
        simp [v2TryPreservingPrivacy, ProvisionalProposal.try_preserving_privacy, hf, exceptIsOk]
  · intro h
    subst h
    rfl
  · intro hall
    cases cands with
    | nil => rfl
    | cons c cs =>
      have hnone : (c :: cs).find? (fun cand => uih2Compatible st cand.1) = none := by
        refine List.find?_eq_none.mpr ?_
        intro x hx
        simp [hall x hx]
      simp [v2TryPreservingPrivacy, ProvisionalProposal.try_preserving_privacy, hnone,
        errClassIsSelection]

/-- C4 witness: with existing inputs of 3000 sats and outputs of 5000
sats, a 4000-sat candidate is UIH2-compatible, and the selection call on
the singleton candidate set succeeds. -/
theorem claim_C4_witness :
    exceptIsOk (v2TryPreservingPrivacy sampleUihState [(4000, ⟨"bb", 1⟩)]).1 = true :=
  (claim_C4 sampleUihState [(4000, ⟨"bb", 1⟩)]).2.1
    ⟨(4000, ⟨"bb", 1⟩), by decide, by decide⟩

/-- C5: every pipeline operation that invokes a host callback surfaces a
callback failure as a server-class error, distinguishable from a protocol
rejection of the original PSBT: the wrapper adapters wrap the failure as
`Error::Server` (v2.rs:212, 231, 281, 345, 391, 504, 562) and the
conversion into `PayjoinError` keeps the class.  The owned-input,
seen-before and output-identification checks consult their oracle once per
input or output, so a nonempty input or output list is required for the
callback to be reached; the substitution call invokes its generator only
when substitution is enabled. -/
theorem claim_C5 (e : PayjoinError) :
    (∀ (u : V2UncheckedProposal) (minFr : Option Nat),
      errClassIsServer (u.check_broadcast_suitability minFr (fun _ => .error e)) = true) ∧
    (∀ m : V2MaybeInputsOwned, m.inner.proposal.txInputs ≠ [] →
      errClassIsServer (m.check_inputs_not_owned (fun _ => .error e)) = true) ∧
    (∀ s : V2MaybeInputsSeen, s.inner.proposal.txInputs ≠ [] →
      errClassIsServer (s.check_no_inputs_seen_before (fun _ => .error e)) = true) ∧
    (∀ o : V2OutputsUnknown, o.inner.proposal.txOutputs ≠ [] →
      errClassIsServer (o.identify_receiver_outputs (fun _ => .error e)) = true) ∧
    (∀ st : ProvisionalProposal, st.substitutionDisabled = false →
      errClassIsServer (v2TrySubstituteReceiverOutput st (fun _ => .error e)).1 = true) ∧
    (∀ (st : ProvisionalProposal) (minVb : Option Nat) (maxVb : Nat),
      errClassIsServer (v2FinalizeProposal st (fun _ => .error e) minVb maxVb).1 = true) := by
  refine ⟨fun u minFr => rfl, ?_, ?_, ?_, ?_, fun st minVb maxVb => rfl⟩
  · intro m hne
    cases hi : m.inner.proposal.txInputs with
    | nil => exact absurd hi hne
    | cons i rest =>
      simp [V2MaybeInputsOwned.check_inputs_not_owned,
        MaybeInputsOwned.check_inputs_not_owned, checkInputsNotOwnedAux, hi,
        Except.mapError, ReceiveError.toPayjoinError, errClassIsServer]
  · intro s hne
    cases hi : s.inner.proposal.txInputs with
    | nil => exact absurd hi hne
    | cons i rest =>
      simp [V2MaybeInputsSeen.check_no_inputs_seen_before,
        MaybeInputsSeen.check_no_inputs_seen_before, checkNoInputsSeenAux, hi,
        Except.mapError, ReceiveError.toPayjoinError, errClassIsServer]
  · intro o hne
    cases hi : o.inner.proposal.txOutputs with
    | nil => exact absurd hi hne
    | cons t rest =>
      simp [V2OutputsUnknown.identify_receiver_outputs,
        OutputsUnknown.identify_receiver_outputs, identifyOwnedOutputs, hi,
        Except.mapError, ReceiveError.toPayjoinError, errClassIsServer]
  · intro st hdis
    simp [v2TrySubstituteReceiverOutput,
      ProvisionalProposal.try_substitute_receiver_output, hdis,
      Except.mapError, ReceiveError.toPayjoinError, errClassIsServer]

/-- C5 witness: each of the six operations, run on a concrete stage with a
callback failing with a concrete transport-class error, reports a
server-class error. -/
theorem claim_C5_witness :
    errClassIsServer (V2UncheckedProposal.check_broadcast_suitability ⟨⟨sampleProposal⟩⟩
      none (fun _ => .error (.transportError "db down"))) = true ∧
    errClassIsServer (V2MaybeInputsOwned.check_inputs_not_owned ⟨⟨sampleProposal⟩⟩
      (fun _ => .error (.transportError "db down"))) = true ∧
    errClassIsServer (V2MaybeInputsSeen.check_no_inputs_seen_before ⟨⟨sampleProposal⟩⟩
      (fun _ => .error (.transportError "db down"))) = true ∧
    errClassIsServer (V2OutputsUnknown.identify_receiver_outputs ⟨⟨sampleProposal⟩⟩
      (fun _ => .error (.transportError "db down"))) = true ∧
    errClassIsServer (v2TrySubstituteReceiverOutput sampleProvisional
      (fun _ => .error (.transportError "db down"))).1 = true ∧
    errClassIsServer (v2FinalizeProposal sampleProvisional
      (fun _ => .error (.transportError "db down")) (some 1) 1000).1 = true := by
  have h := claim_C5 (.transportError "db down")
  exact ⟨h.1 ⟨⟨sampleProposal⟩⟩ none,
    h.2.1 ⟨⟨sampleProposal⟩⟩ (by decide),
    h.2.2.1 ⟨⟨sampleProposal⟩⟩ (by decide),
    h.2.2.2.1 ⟨⟨sampleProposal⟩⟩ (by decide),
    h.2.2.2.2.1 sampleProvisional (by decide),
    h.2.2.2.2.2 sampleProvisional (some 1) 1000⟩

/-- Shape of a successful finalization: when the host signing function
returns a processed PSBT, the finalized proposal carries exactly that PSBT
together with the provisional state's contributed outpoints, owned output
indices and substitution flag. -/
theorem finalize_ok_shape (p : ProvisionalProposal)
    (cb : Psbt → Except ReceiveError Psbt) (minF maxF : Option Nat)
    (q : Psbt) (r : PayjoinProposal)
    (hcb : cb p.psbt = .ok q)
    (h : ProvisionalProposal.finalize_proposal p cb minF maxF = .ok r) :
    r = { psbt := q
          contributedOutpoints := p.contributedOutpoints
          ownedVouts := p.ownedVouts
          substitutionDisabled := p.substitutionDisabled } := by
  unfold ProvisionalProposal.finalize_proposal at h
  rw [hcb] at h
  rcases minF with _ | m <;> rcases maxF with _ | mx <;> simp only [] at h <;>
      (try split_ifs at h) <;>
      exact (Except.ok.inj h).symm

/-- C6: for every finalized proposal whose provisional state satisfied the
negotiation invariants (contributed outpoints are among the accumulated
PSBT's inputs and disjoint from the sender's original inputs) and whose
host signing step preserved the input set, `utxos_to_be_locked` returns
exactly the receiver-contributed outpoints, every returned outpoint is an
input of the final PSBT, and none is a sender input. -/
theorem claim_C6 (st : ProvisionalProposal)
    (processPsbt : Psbt → Except PayjoinError Psbt) (q : Psbt)
    (minVb : Option Nat) (maxVb : Nat) (prop : V2PayjoinProposal)
    (hcb : processPsbt st.psbt = .ok q)
    (hinputs : q.inputs = st.psbt.inputs)
    (hsub : ∀ o ∈ st.contributedOutpoints, o ∈ st.psbt.inputs)
    (hdisj : ∀ o ∈ st.contributedOutpoints, o ∉ st.senderInputOutpoints)
    (hok : (v2FinalizeProposal st processPsbt minVb maxVb).1 = .ok prop) :
    prop.utxos_to_be_locked = st.contributedOutpoints ∧
    (∀ o ∈ prop.utxos_to_be_locked, o ∈ prop.inner.psbt.inputs) ∧
    (∀ o ∈ prop.utxos_to_be_locked, o ∉ st.senderInputOutpoints) := by
  unfold v2FinalizeProposal at hok
  cases hres : ProvisionalProposal.finalize_proposal st
      (fun p => (processPsbt p).mapError ReceiveError.server)
      (minVb.bind feeRateFromSatPerVb) (feeRateFromSatPerVb maxVb) with
  | error e => rw [hres] at hok; simp at hok
  | ok r =>
    rw [hres] at hok
    simp only [Except.ok.injEq] at hok
    have hshape := finalize_ok_shape st
      (fun p => (processPsbt p).mapError ReceiveError.server)
      (minVb.bind feeRateFromSatPerVb) (feeRateFromSatPerVb maxVb) q r
      (by simp [hcb, Except.mapError]) hres
    have hlocked : prop.utxos_to_be_locked = st.contributedOutpoints := by
      rw [← hok, hshape]
      simp [V2PayjoinProposal.utxos_to_be_locked, PayjoinProposal.utxos_to_be_locked]
    refine ⟨hlocked, ?_, ?_⟩
    · intro o ho
      rw [hlocked] at ho
      rw [← hok, hshape]
      simp only [hinputs]
      exact hsub o ho
    · intro o ho
      rw [hlocked] at ho
      exact hdisj o ho

/-- C6 witness: a provisional state with sender input `aa:0` and
receiver-contributed input `bb:1`, finalized under bounds 1..1000 sat/vB,
reports exactly `bb:1` to be locked. -/
theorem claim_C6_witness :
    V2PayjoinProposal.utxos_to_be_locked sampleFinalizedProp =
      sampleFinalState.contributedOutpoints :=
  (claim_C6 sampleFinalState processPsbtFinal psbtFinal (some 1) 1000
    sampleFinalizedProp rfl rfl (by decide) (by decide) rfl).1

/-- C7: with clamping enabled, the explicit-contribution build strategy
succeeds on a change output smaller than the requested maximum
contribution by lowering the contribution to the change amount: whenever
change detection resolves an index whose output value is below the
maximum, the build returns a sender whose effective contribution is the
change value at that index. -/
theorem claim_C7 (b : SenderBuilder) (maxFee minFr i v : Nat)
    (hidx : determineChangeIndex b none = .ok i)
    (hval : (b.psbtOutputs.getD i ⟨0, []⟩).value = v)
    (hlt : v < maxFee) :
    exceptIsOk (b.build_with_additional_fee maxFee none minFr true) = true ∧
    senderContribution (b.build_with_additional_fee maxFee none minFr true) =
      some (v, i) := by
  unfold SenderBuilder.build_with_additional_fee
  rw [hidx]
  simp only [hval, if_pos hlt, if_pos rfl]
  exact ⟨rfl, rfl⟩

/-- C7 witness: `build_with_additional_fee` with a 1000-sat maximum
contribution, no change index, and clamping enabled, against a PSBT whose
auto-detected change output holds 500 sats, succeeds with an effective
contribution of 500 sats. -/
theorem claim_C7_witness :
    exceptIsOk (sampleSenderBuilder.build_with_additional_fee 1000 none 1000 true) = true ∧
    senderContribution (sampleSenderBuilder.build_with_additional_fee 1000 none 1000 true) =
      some (500, 1) :=
  claim_C7 sampleSenderBuilder 1000 1000 1 500 rfl (by decide) (by decide)

/-- C8: when output substitution is disabled, `try_substitute_receiver_output`
returns success and leaves the proposal state unchanged — the call is inert
and the generator is never invoked, so no prior check of
`is_output_substitution_disabled` is required of the caller. -/
theorem claim_C8 (st : ProvisionalProposal)
    (generateScript : Unit → Except PayjoinError (List Nat))
    (hdis : st.is_output_substitution_disabled = true) :
    v2TrySubstituteReceiverOutput st generateScript = (.ok (), st) := by
  unfold v2TrySubstituteReceiverOutput ProvisionalProposal.try_substitute_receiver_output
  rw [ProvisionalProposal.is_output_substitution_disabled] at hdis
  simp [hdis]

/-- C8 witness: on a concrete proposal with substitution disabled, the
substitution call with a generator that would fail succeeds as a no-op. -/
theorem claim_C8_witness :
    v2TrySubstituteReceiverOutput sampleDisabledState
      (fun _ => .error (.transportError "no fresh script")) =
      (.ok (), sampleDisabledState) :=
  claim_C8 sampleDisabledState (fun _ => .error (.transportError "no fresh script"))
    (by decide)
